import Mathlib

/-!
Verification development for the Keepa API search service (Go sources:
`main.go`, `model.go`, `redis.go`, and the client file defining
`KeepaClient`, `updateTokens`, `waitForTokens`, `calculateDynamicBatchSize`,
`doRequest`, `ProductFinder`, `ProductRequest`, `handleFetchProducts`,
`fetchProductDetails`).

The Go code is shallowly embedded: machine integers become `Int`,
`float64` arithmetic becomes `ℚ` (all constants involved are exactly
representable), wall-clock reads and HTTP exchanges become explicit
oracle parameters, and `time.Sleep` calls are recorded as the slept
duration instead of actually sleeping.
-/

/-- Truncation of a rational toward zero, the semantics of the Go
`int(x)` conversion on a `float64`. -/
def truncQ (q : ℚ) : ℤ := if 0 ≤ q then ⌊q⌋ else -⌊-q⌋

/-- State of the Go `KeepaClient` struct (model.go): the mutable token
budget plus its configuration.  The `Logger` field is pure logging and
is omitted. -/
structure KeepaClient where
  tokensLeft : Int
  refillRate : ℚ
  safetyThreshold : Int
  maxRetries : Nat
  lastTimestamp : Int
deriving DecidableEq

/-- Initial client state built by `NewKeepaClient` (the initial
timestamp, read from the wall clock, is a parameter). -/
def NewKeepaClient (now : Int) : KeepaClient :=
  { tokensLeft := 300
    refillRate := 5
    safetyThreshold := 10
    maxRetries := 3
    lastTimestamp := now }

/-- Embedding of `KeepaClient.updateTokens` (what the spec calls
`TokenBudget.recompute`): recover `elapsedSeconds * refillRate/60`
tokens (truncated as by the Go `int(...)` conversion), cap at 300, and
adopt the new timestamp. -/
def updateTokens (client : KeepaClient) (currentTimestamp : Int) : KeepaClient :=
  let timeDiffMs : ℚ := ((currentTimestamp - client.lastTimestamp : ℤ) : ℚ)
  let tokensRecovered : ℚ := (timeDiffMs / 1000) * (client.refillRate / 60)
  let t := client.tokensLeft + truncQ tokensRecovered
  let t := if t > 300 then 300 else t
  { client with tokensLeft := t, lastTimestamp := currentTimestamp }

/-- Embedding of `KeepaClient.waitForTokens` (what the spec calls
`awaitAvailability`).  Returns `none` when no wait happens, or
`some waitSeconds` together with the state after the post-sleep
`updateTokens` call; `nowAfter` is the wall-clock value observed after
the sleep. -/
def waitForTokens (client : KeepaClient) (requiredTokens refillIn : Int)
    (nowAfter : Int) : Option ℚ × KeepaClient :=
  if client.tokensLeft ≥ requiredTokens then (none, client)
  else
    let tokensNeeded := requiredTokens - client.tokensLeft
    let secondsPerToken : ℚ := 60 / client.refillRate
    let waitSeconds : ℚ := (tokensNeeded : ℤ) * secondsPerToken
    let waitSeconds := if refillIn > 0 then (refillIn : ℚ) / 1000 else waitSeconds
    (some waitSeconds, updateTokens client nowAfter)

/-- Embedding of `KeepaClient.calculateDynamicBatchSize` (what the spec calls
`BatchPlanner`): refresh the budget, subtract the safety threshold,
divide by the per-item cost of 2, cap at `maxBatchSize`, floor at 1. -/
def calculateDynamicBatchSize (client : KeepaClient) (now : Int)
    (maxBatchSize : Int) : Int × KeepaClient :=
  let client := updateTokens client now
  let availableTokens := client.tokensLeft - client.safetyThreshold
  if availableTokens ≤ 0 then (1, client)
  else
    let maxASINs := availableTokens / 2
    let maxASINs := if maxASINs > maxBatchSize then maxBatchSize else maxASINs
    let maxASINs := if maxASINs < 1 then 1 else maxASINs
    (maxASINs, client)

/-- Portion of the Go `APIResponse` body that `doRequest` reads: the
quota envelope reported by the upstream service. -/
structure APIResponse where
  tokensLeft : Int
  refillIn : Int
  timestamp : Int
deriving DecidableEq

/-- Result of reading and JSON-decoding a response body:
`ioutil.ReadAll` failure, `json.Unmarshal` failure, or a parsed body. -/
inductive BodyRead where
  | readFail
  | parseFail
  | parsed (b : APIResponse)
deriving DecidableEq

/-- An HTTP response that was actually obtained: its status code and
what reading its body yields. -/
structure HttpResp where
  status : Int
  body : BodyRead
deriving DecidableEq

/-- Oracle for one loop iteration of `doRequest`: the outcome of the
`http.Get` / `http.Post` transport call that iteration would make
(`none` = transport error), and the wall-clock value observed after
the backoff sleep of that iteration. -/
structure AttemptEnv where
  getRes : Option HttpResp
  postRes : Option HttpResp
  nowAfter : Int

/-- What the send phase of one `doRequest` iteration does before any
status-code handling. -/
inductive SendStep where
  | returnTransportError
  | nilDerefPanic
  | proceed (r : HttpResp)
deriving DecidableEq

/-- Embedding of `doRequest` lines 114-132: `resp` and `err` start as
zero values; the GET branch assigns both; the POST branch assigns
`resp` but, due to the `jsonData, err := ...` shadowing on the marshal
line, leaves the outer `err` untouched; then `err` is checked and, if
nil, `resp.Body` is dereferenced by the deferred `Close`.  A
dereference of an absent response is a nil-pointer panic. -/
def sendPhase (method : String) (getRes postRes : Option HttpResp) : SendStep :=
  let resp : Option HttpResp := none
  let errNonNil : Bool := false
  let respErr : Option HttpResp × Bool :=
    if method = "GET" then (getRes, getRes.isNone) else (resp, errNonNil)
  let resp := if method = "POST" then postRes else respErr.1
  if respErr.2 then .returnTransportError
  else
    match resp with
    | none => .nilDerefPanic
    | some r => .proceed r

/-- Terminal outcome of one `doRequest` invocation, one constructor per
`return` site (plus the nil-dereference panic the code can hit). -/
inductive DoReqOutcome where
  | success (b : APIResponse)
  | errTransport
  | nilDerefPanic
  | errRead429
  | errParse429
  | errMaxRetries429
  | errStatus (code : Int)
  | errRead
  | errParse
  | errAfterLoop
deriving DecidableEq

/-- Observable behaviour of the retry loop of one `doRequest`
invocation: how many attempts were sent, the backoff sleeps performed
(in seconds, in order), the terminal outcome, and the final client
state. -/
structure DoReqTrace where
  attempts : Nat
  sleeps : List ℚ
  outcome : DoReqOutcome
  final : KeepaClient
deriving DecidableEq

/-- Embedding of the `for retry := 0; retry <= client.MaxRetries`
loop of `doRequest` (lines 111-204).  `fuel` counts the loop
iterations still permitted by the loop condition; the caller passes
`maxRetries + 1 - retry`, and `fuel = 0` is the fall-through to the
final `return` after the loop. -/
def doRequestLoop (method : String) (env : Nat → AttemptEnv)
    (requiredTokens : Int) (client : KeepaClient) (retry : Nat) :
    Nat → DoReqTrace
  | 0 => ⟨0, [], .errAfterLoop, client⟩
  | fuel + 1 =>
    let e := env retry
    match sendPhase method e.getRes e.postRes with
    | .returnTransportError => ⟨1, [], .errTransport, client⟩
    | .nilDerefPanic => ⟨1, [], .nilDerefPanic, client⟩
    | .proceed r =>
      if r.status = 429 then
        match r.body with
        | .readFail => ⟨1, [], .errRead429, client⟩
        | .parseFail => ⟨1, [], .errParse429, client⟩
        | .parsed b =>
          let client1 : KeepaClient :=
            { client with tokensLeft := b.tokensLeft, lastTimestamp := b.timestamp }
          if retry = client1.maxRetries then ⟨1, [], .errMaxRetries429, client1⟩
          else
            let baseWaitSeconds : ℚ := (b.refillIn : ℚ) / 1000
            let baseWaitSeconds : ℚ :=
              if baseWaitSeconds ≤ 0 then
                ((requiredTokens + client1.safetyThreshold - client1.tokensLeft : ℤ) : ℚ)
                  * (60 / client1.refillRate)
              else baseWaitSeconds
            let retryWaitSeconds : ℚ := baseWaitSeconds + 2 ^ retry
            let client2 := updateTokens client1 e.nowAfter
            let rest := doRequestLoop method env requiredTokens client2 (retry + 1) fuel
            ⟨rest.attempts + 1, retryWaitSeconds :: rest.sleeps, rest.outcome, rest.final⟩
      else if r.status ≠ 200 then ⟨1, [], .errStatus r.status, client⟩
      else
        match r.body with
        | .readFail => ⟨1, [], .errRead, client⟩
        | .parseFail => ⟨1, [], .errParse, client⟩
        | .parsed b =>
          ⟨1, [], .success b,
            { client with tokensLeft := b.tokensLeft, lastTimestamp := b.timestamp }⟩

/-- Observable behaviour of a whole `doRequest` invocation: the
pre-loop `waitForTokens` wait (if any) and the loop trace. -/
structure DoReqRun where
  blockedWait : Option ℚ
  trace : DoReqTrace
deriving DecidableEq

/-- Embedding of `doRequest` (lines 100-205): refresh the budget,
block on `waitForTokens` when `requiredTokens + safetyThreshold`
exceeds the budget, then run the retry loop.  `now0` is the wall-clock
value at entry, `waitNow` the one observed after a pre-loop wait. -/
def doRequest (method : String) (env : Nat → AttemptEnv)
    (requiredTokens : Int) (now0 waitNow : Int) (client : KeepaClient) : DoReqRun :=
  let client := updateTokens client now0
  let wc : Option ℚ × KeepaClient :=
    if requiredTokens + client.safetyThreshold > client.tokensLeft then
      waitForTokens client (requiredTokens + client.safetyThreshold) 0 waitNow
    else (none, client)
  ⟨wc.1, doRequestLoop method env requiredTokens wc.2 0 (wc.2.maxRetries + 1)⟩

/-- Control flow of one iteration of the per-ASIN loop in
`handleFetchProducts`: `continue` to the next ASIN, or the `return`
statement that leaves the handler. -/
inductive LoopControl where
  | next
  | returnAll
deriving DecidableEq

/-- Observable behaviour of one iteration of the per-ASIN loop:
how many upstream `ProductRequest` calls it issued, the client state
it leaves behind, and where control goes. -/
structure ItemRun where
  upstreamCalls : Nat
  client : KeepaClient
  control : LoopControl

/-- Embedding of one iteration of the per-ASIN loop of
`handleFetchProducts` (lines 358-390).  `cached` is the result of the
`getProductFromRedis` lookup performed first (`some payload` when the
lookup returned with a nil error, `none` on a miss or store error);
`firestoreOk` is whether the Firestore save of the cached payload
succeeds; `productRequest` abstracts the upstream
`ProductRequest`/`doRequest` call, returning the mutated client and
whether it succeeded.  On a cache hit the upstream is never reached:
the handler saves to Firestore and either `return`s or `continue`s. -/
def processAsin (client : KeepaClient) (cached : Option String)
    (firestoreOk : Bool) (productRequest : KeepaClient → KeepaClient × Bool) :
    ItemRun :=
  match cached with
  | some _ =>
    if firestoreOk then ⟨0, client, .returnAll⟩
    else ⟨0, client, .next⟩
  | none =>
    let r := productRequest client
    ⟨1, r.1, .next⟩

/-- Per-ASIN outcome oracle for `fetchProductDetails` (main.go): which
of the four early-return failure sites fires, or a successful parsed
payload. -/
inductive DetailOutcome where
  | createFail
  | transportFail
  | readFail
  | parseFail
  | ok (data : String)
deriving DecidableEq

/-- Failure reasons recorded in the `Error` field of a
`ProductDetailResponse`, one per failure site of the per-ASIN
goroutine body. -/
inductive FailReason where
  | createFailed
  | requestFailed
  | readFailed
  | parseFailed
deriving DecidableEq

/-- Embedding of the main.go `ProductDetailResponse`: the per-item
`FetchResult`. -/
structure ProductDetailResponse where
  asin : String
  success : Bool
  data : Option String
  errReason : Option FailReason
deriving DecidableEq

/-- Result entry the goroutine body of `fetchProductDetails` appends
for one ASIN, by cases on which branch runs (main.go lines 198-274). -/
def detailFetchOne (asin : String) : DetailOutcome → ProductDetailResponse
  | .createFail => ⟨asin, false, none, some .createFailed⟩
  | .transportFail => ⟨asin, false, none, some .requestFailed⟩
  | .readFail => ⟨asin, false, none, some .readFailed⟩
  | .parseFail => ⟨asin, false, none, some .parseFailed⟩
  | .ok d => ⟨asin, true, some d, none⟩

/-- Whether a `DetailOutcome` is the success branch. -/
def DetailOutcome.isOk : DetailOutcome → Bool
  | .ok _ => true
  | _ => false

/-- Failure reason a `DetailOutcome` gets reported with. -/
def DetailOutcome.reason : DetailOutcome → Option FailReason
  | .createFail => some .createFailed
  | .transportFail => some .requestFailed
  | .readFail => some .readFailed
  | .parseFail => some .parseFailed
  | .ok _ => none

/-- Embedding of `fetchProductDetails` (main.go lines 173-282): every
ASIN of the input list is processed by an independent goroutine body
whose every branch appends exactly one result; the aggregation is
mutex-guarded, and the linearisation recorded here lists results in
input order. -/
def fetchProductDetails (outcome : String → DetailOutcome)
    (asinList : List String) : List ProductDetailResponse :=
  asinList.map (fun asin => detailFetchOne asin (outcome asin))

/-- States after each call of a sequence of `updateTokens`
recomputations at the given timestamps. -/
def updateStates (client : KeepaClient) : List Int → List KeepaClient
  | [] => []
  | t :: ts =>
    let c1 := updateTokens client t
    c1 :: updateStates c1 ts

/-- Boolean test that a timestamp list is monotonically increasing
starting from the given instant. -/
def monoTimes (t0 : Int) : List Int → Bool
  | [] => true
  | t :: ts => (t0 ≤ t) && monoTimes t ts

/-- Boolean test that `tokensLeft` never decreases along a list of
client states. -/
def tokensNondecreasing : List KeepaClient → Bool
  | [] => true
  | [_] => true
  | a :: b :: rest => (a.tokensLeft ≤ b.tokensLeft) && tokensNondecreasing (b :: rest)

/-- Client state as produced by `NewKeepaClient` with initial wall
clock 0. -/
def clientInit : KeepaClient := NewKeepaClient 0

/-- Oracle in which every transport call fails (both `http.Get` and
`http.Post` return a non-nil error). -/
def transportFailEnv : Nat → AttemptEnv := fun _ => ⟨none, none, 0⟩

/-- Oracle in which every attempt yields a 200 response whose body
fails to decode. -/
def parseFailEnv : Nat → AttemptEnv := fun _ => ⟨some ⟨200, .parseFail⟩, none, 0⟩

/-- Oracle in which every attempt yields a 429 whose body reports
0 tokens and a refill hint of 0ms, except attempt index 2 which hints
500ms: the scenario of the three-consecutive-429 test with one more
429 available for a fourth attempt. -/
def env429C2 : Nat → AttemptEnv := fun i =>
  ⟨some ⟨429, .parsed ⟨0, if i = 2 then 500 else 0, 0⟩⟩, none, 0⟩

/-- Oracle in which every attempt yields a 429 reporting 0 tokens left
and a positive 1000ms refill hint. -/
def env429Hint : Nat → AttemptEnv := fun _ =>
  ⟨some ⟨429, .parsed ⟨0, 1000, 0⟩⟩, none, 0⟩

/-- Oracle in which every attempt yields a 200 whose body reports 400
tokens left, more than the stated capacity of 300. -/
def env200Over : Nat → AttemptEnv := fun _ =>
  ⟨some ⟨200, .parsed ⟨400, 0, 0⟩⟩, none, 0⟩

/-- Record updates and recomputations never touch the retry and rate
configuration: `updateTokens` preserves `maxRetries`. -/
theorem updateTokens_maxRetries (client : KeepaClient) (now : Int) :
    (updateTokens client now).maxRetries = client.maxRetries := rfl

/-- A `waitForTokens` call preserves `maxRetries`. -/
theorem waitForTokens_maxRetries (client : KeepaClient)
    (requiredTokens refillIn nowAfter : Int) :
    (waitForTokens client requiredTokens refillIn nowAfter).2.maxRetries =
      client.maxRetries := by
  unfold waitForTokens
  split <;> rfl

/-- A nonnegative rational truncates to a nonnegative integer. -/
theorem truncQ_nonneg {q : ℚ} (h : 0 ≤ q) : 0 ≤ truncQ q := by
  unfold truncQ
  rw [if_pos h]
  exact Int.floor_nonneg.mpr h

/-- After any `updateTokens` recomputation the budget is at most the
capacity of 300. -/
theorem updateTokens_tokensLeft_le (client : KeepaClient) (now : Int) :
    (updateTokens client now).tokensLeft ≤ 300 := by
  unfold updateTokens
  dsimp only
  split
  · exact le_refl _
  · omega

/-- With a nonnegative refill rate and a timestamp that does not move
backwards, an `updateTokens` recomputation never lowers a budget that
is within capacity. -/
theorem updateTokens_mono (client : KeepaClient) (now : Int)
    (hrate : 0 ≤ client.refillRate) (hcap : client.tokensLeft ≤ 300)
    (htime : client.lastTimestamp ≤ now) :
    client.tokensLeft ≤ (updateTokens client now).tokensLeft := by
  unfold updateTokens
  dsimp only
  have hrec : (0:ℚ) ≤ ((now - client.lastTimestamp : ℤ) : ℚ) / 1000 *
      (client.refillRate / 60) := by
    apply mul_nonneg
    · apply div_nonneg _ (by norm_num)
      exact_mod_cast Int.sub_nonneg.mpr htime
    · exact div_nonneg hrate (by norm_num)
  have h := truncQ_nonneg hrec
  split
  · exact hcap
  · omega

/-- C1 (counterexample): with the full retry budget available
(`maxRetries = 3`, attempt index 0), a transport failure does not lead
to any retry or backoff: `doRequest` makes exactly one attempt, sleeps
never, and returns the transport error, contradicting the claim that
it retries after a backoff while attempts remain. -/
theorem C1_counterexample :
    clientInit.maxRetries = 3 ∧
    (doRequest "GET" transportFailEnv 8 0 0 clientInit).trace.attempts = 1 ∧
    (doRequest "GET" transportFailEnv 8 0 0 clientInit).trace.sleeps = [] ∧
    (doRequest "GET" transportFailEnv 8 0 0 clientInit).trace.outcome =
      .errTransport := by
  refine ⟨rfl, ?_, ?_, ?_⟩ <;>
    norm_num [doRequest, doRequestLoop, sendPhase, updateTokens, truncQ,
      waitForTokens, transportFailEnv, clientInit, NewKeepaClient]

/-- C1 (amended): a transport failure, or a read or decode failure of
a 200 response body, makes `doRequest` return the corresponding error
immediately — one attempt, no sleep, no retry — regardless of how many
retry attempts remain; only 429 responses are retried. -/
theorem C1_amended_thm (client : KeepaClient) (env : Nat → AttemptEnv)
    (requiredTokens : Int) (fuel : Nat) :
    ((env 0).getRes = none →
      doRequestLoop "GET" env requiredTokens client 0 (fuel + 1) =
        ⟨1, [], .errTransport, client⟩) ∧
    ((env 0).getRes = some ⟨200, .parseFail⟩ →
      doRequestLoop "GET" env requiredTokens client 0 (fuel + 1) =
        ⟨1, [], .errParse, client⟩) ∧
    ((env 0).getRes = some ⟨200, .readFail⟩ →
      doRequestLoop "GET" env requiredTokens client 0 (fuel + 1) =
        ⟨1, [], .errRead, client⟩) := by
  refine ⟨fun h => ?_, fun h => ?_, fun h => ?_⟩ <;>
    simp [doRequestLoop, sendPhase, h]

/-- C1 (witness): the amended statement applied to concrete runs with
a transport failure and with an undecodable 200 body. -/
theorem C1_amended_thm_witness :
    doRequestLoop "GET" transportFailEnv 8 clientInit 0 4 =
      ⟨1, [], .errTransport, clientInit⟩ ∧
    doRequestLoop "GET" parseFailEnv 8 clientInit 0 4 =
      ⟨1, [], .errParse, clientInit⟩ :=
  ⟨(C1_amended_thm clientInit transportFailEnv 8 3).1 rfl,
   (C1_amended_thm clientInit parseFailEnv 8 3).2.1 rfl⟩

/-- The retry loop makes at most `fuel` attempts: one per permitted
loop iteration. -/
theorem doRequestLoop_attempts_le (method : String) (env : Nat → AttemptEnv)
    (requiredTokens : Int) :
    ∀ (fuel : Nat) (client : KeepaClient) (retry : Nat),
      (doRequestLoop method env requiredTokens client retry fuel).attempts ≤ fuel := by
  intro fuel
  induction fuel with
  | zero => intro client retry; simp [doRequestLoop]
  | succ n ih =>
    intro client retry
    simp only [doRequestLoop]
    split
    · simp
    · simp
    · split
      · split
        · simp
        · simp
        · split
          · simp
          · simpa using Nat.succ_le_succ (ih _ _)
      · split
        · simp
        · split
          · simp
          · simp
          · simp

/-- String method names compared by the send phase are distinct. -/
theorem method_get_ne : ("GET" : String) ≠ "POST" := by decide

/-- C2 (counterexample): with `maxRetries = 3` and an upstream that
answers 429 on each of the first three attempts (refill hints 0, 0 and
500ms), `doRequest` does make a fourth attempt — the loop runs
`retry = 0 .. maxRetries` inclusive — so the attempt count is 4, not
the 3 the claim requires. -/
theorem C2_counterexample :
    (doRequest "GET" env429C2 10 0 0 clientInit).trace.attempts = 4 ∧
    ¬ (doRequest "GET" env429C2 10 0 0 clientInit).trace.attempts = 3 := by
  constructor <;>
    norm_num [doRequest, doRequestLoop, sendPhase, updateTokens, truncQ,
      waitForTokens, env429C2, clientInit, NewKeepaClient, method_get_ne]

/-- C2 (amended): with `maxRetries = 3` and consecutive 429 answers
(refill hints 0, 0, 500ms, 0), `doRequest` makes `maxRetries + 1 = 4`
attempts, sleeps after each of the first three with backoff driven by
`2 ^ attemptIndex` — 241s and 242s from the local estimate plus 1 and
2, then the honored 500ms hint plus 4 giving 4.5s — and returns the
429 retry-exhaustion error after the fourth 429 without sleeping
again; in general every invocation yields exactly one terminal
outcome and at most `maxRetries + 1` attempts. -/
theorem C2_amended_thm :
    ((doRequest "GET" env429C2 10 0 0 clientInit).trace.attempts = 4 ∧
     (doRequest "GET" env429C2 10 0 0 clientInit).trace.sleeps =
       [241, 242, 9/2] ∧
     (doRequest "GET" env429C2 10 0 0 clientInit).trace.outcome =
       .errMaxRetries429) ∧
    (∀ (method : String) (env : Nat → AttemptEnv) (requiredTokens now0 waitNow : Int)
       (client : KeepaClient),
      (doRequest method env requiredTokens now0 waitNow client).trace.attempts ≤
        client.maxRetries + 1) := by
  constructor
  · refine ⟨?_, ?_, ?_⟩ <;>
      norm_num [doRequest, doRequestLoop, sendPhase, updateTokens, truncQ,
        waitForTokens, env429C2, clientInit, NewKeepaClient, method_get_ne]
  · intro method env requiredTokens now0 waitNow client
    unfold doRequest
    dsimp only
    split
    · calc (doRequestLoop method env requiredTokens
            (waitForTokens (updateTokens client now0)
              (requiredTokens + (updateTokens client now0).safetyThreshold) 0 waitNow).2
            0 ((waitForTokens (updateTokens client now0)
              (requiredTokens + (updateTokens client now0).safetyThreshold) 0 waitNow).2.maxRetries + 1)).attempts
          ≤ (waitForTokens (updateTokens client now0)
              (requiredTokens + (updateTokens client now0).safetyThreshold) 0 waitNow).2.maxRetries + 1 :=
            doRequestLoop_attempts_le _ _ _ _ _ _
      _ = client.maxRetries + 1 := by
            rw [waitForTokens_maxRetries, updateTokens_maxRetries]
    · calc (doRequestLoop method env requiredTokens (updateTokens client now0) 0
            ((updateTokens client now0).maxRetries + 1)).attempts
          ≤ (updateTokens client now0).maxRetries + 1 :=
            doRequestLoop_attempts_le _ _ _ _ _ _
      _ = client.maxRetries + 1 := by rw [updateTokens_maxRetries]

/-- C3 (counterexample): on a 429 carrying the positive hint
`refillIn = 1000`ms while the local-budget estimate is 216s, the first
backoff sleep is `1000/1000 + 2^0 = 2` seconds — the hint replaces the
local estimate — whereas the claimed formula
`max(refillInSeconds, estimateFromLocalBudget) + 2^attemptIndex`
yields 217 seconds. -/
theorem C3_counterexample :
    (doRequest "GET" env429Hint 8 0 0 clientInit).trace.sleeps.head? = some 2 ∧
    max ((1000 : ℚ) / 1000)
        (((8 + 10 - 0 : ℤ) : ℚ) * (60 / (5 : ℚ))) + 2 ^ (0 : ℕ) = 217 ∧
    (2 : ℚ) ≠ 217 := by
  refine ⟨?_, by norm_num, by norm_num⟩
  norm_num [doRequest, doRequestLoop, sendPhase, updateTokens, truncQ,
    waitForTokens, env429Hint, clientInit, NewKeepaClient, method_get_ne]

/-- C3 (amended): when a 429 with a decodable body arrives and
attempts remain, the backoff sleep is
`base + 2^attemptIndex` seconds where `base` is the server hint
`refillIn/1000` whenever that is positive, and only otherwise the
local-budget estimate
`(required + safetyThreshold − tokensLeft) × 60/refillRate` (with
`tokensLeft` the value just adopted from the 429 body); the server
hint and the local estimate are alternatives, not combined with
`max`. -/
theorem C3_amended_thm (client : KeepaClient) (env : Nat → AttemptEnv)
    (requiredTokens : Int) (retry fuel : Nat) (b : APIResponse)
    (henv : (env retry).getRes = some ⟨429, .parsed b⟩)
    (hretry : retry ≠ client.maxRetries) :
    (doRequestLoop "GET" env requiredTokens client retry (fuel + 1)).sleeps.head? =
      some ((if (b.refillIn : ℚ) / 1000 ≤ 0 then
              ((requiredTokens + client.safetyThreshold - b.tokensLeft : ℤ) : ℚ) *
                (60 / client.refillRate)
            else (b.refillIn : ℚ) / 1000) + 2 ^ retry) := by
  simp [doRequestLoop, sendPhase, henv, hretry]

/-- C3 (witness): the amended sleep formula applied to the concrete
1000ms-hint run at attempt index 0. -/
theorem C3_amended_thm_witness :
    (doRequestLoop "GET" env429Hint 8 clientInit 0 4).sleeps.head? =
      some ((if ((1000 : Int) : ℚ) / 1000 ≤ 0 then
              ((8 + 10 - 0 : ℤ) : ℚ) * (60 / (5 : ℚ))
            else ((1000 : Int) : ℚ) / 1000) + 2 ^ (0 : ℕ)) := by
  have h := C3_amended_thm clientInit env429Hint 8 0 3
    ⟨0, 1000, 0⟩ rfl (by decide)
  simpa using h

/-- C4 (counterexample): a reachable reconciliation breaks the
invariant — a 200 response whose body reports `tokensLeft = 400` is
adopted verbatim (lines 198-200), leaving the budget at 400, above the
capacity of 300. -/
theorem C4_counterexample :
    (doRequest "GET" env200Over 8 0 0 clientInit).trace.final.tokensLeft = 400 ∧
    ¬ ((doRequest "GET" env200Over 8 0 0 clientInit).trace.final.tokensLeft ≤ 300) := by
  constructor <;>
    norm_num [doRequest, doRequestLoop, sendPhase, updateTokens, truncQ,
      waitForTokens, env200Over, clientInit, NewKeepaClient, method_get_ne]

/-- C4 (amended): `updateTokens` recomputations do keep the budget at
or below the capacity of 300 (the upper clamp on lines 43-45), but the
reconciliations adopt the server-reported `tokensLeft` verbatim with
no clamping, and `updateTokens` enforces no lower bound, so
`0 ≤ tokensLeft ≤ 300` does not hold for every reachable state. -/
theorem C4_amended_thm :
    ∀ (client : KeepaClient) (now : Int),
      (updateTokens client now).tokensLeft ≤ 300 :=
  fun client now => updateTokens_tokensLeft_le client now

/-- C7 (confirmed): `calculateDynamicBatchSize` refreshes the budget,
computes `availableTokens = tokensLeft − safetyThreshold`, returns 1
when that is not positive, and otherwise
`min(availableTokens / 2, maxBatchSize)` floored at 1 (the per-item
cost is the hard-coded worst case of 2); in particular with
`tokensLeft = 50`, `safetyThreshold = 10`, `requestedMax = 100` and no
refill accrued it returns 20. -/
theorem C7_thm :
    (∀ (client : KeepaClient) (now maxBatchSize : Int),
      (calculateDynamicBatchSize client now maxBatchSize).1 =
        (if (updateTokens client now).tokensLeft - client.safetyThreshold ≤ 0
         then 1
         else max 1 (min (((updateTokens client now).tokensLeft -
                  client.safetyThreshold) / 2) maxBatchSize))) ∧
    (calculateDynamicBatchSize ⟨50, 5, 10, 3, 0⟩ 0 100).1 = 20 := by
  constructor
  · intro client now maxBatchSize
    unfold calculateDynamicBatchSize
    have hst : (updateTokens client now).safetyThreshold = client.safetyThreshold := rfl
    dsimp only
    rw [hst]
    split
    · rfl
    · dsimp only
      rcases le_or_lt (((updateTokens client now).tokensLeft -
          client.safetyThreshold) / 2) maxBatchSize with h | h
      · rw [if_neg (not_lt.mpr h), min_eq_left h]
        omega
      · rw [if_pos h, min_eq_right h.le]
        omega
  · norm_num [calculateDynamicBatchSize, updateTokens, truncQ]

/-- C8 (confirmed): `waitForTokens` blocks exactly when
`tokensLeft < required`; the blocked wait is `refillIn/1000` seconds
when the hint is positive, else
`(required − tokensLeft) × 60/refillRate` seconds, after which the
budget is recomputed; and the `doRequest` entry path with
`tokensLeft = 5`, `safetyThreshold = 10`, `required = 8` blocks
(5 < 18) for 156 seconds. -/
theorem C8_thm :
    (∀ (client : KeepaClient) (required refillIn nowAfter : Int),
      ((waitForTokens client required refillIn nowAfter).1 ≠ none ↔
        client.tokensLeft < required) ∧
      (client.tokensLeft < required →
        (waitForTokens client required refillIn nowAfter).1 =
          some (if refillIn > 0 then (refillIn : ℚ) / 1000
                else ((required - client.tokensLeft : ℤ) : ℚ) *
                  (60 / client.refillRate)) ∧
        (waitForTokens client required refillIn nowAfter).2 =
          updateTokens client nowAfter)) ∧
    (doRequest "GET" transportFailEnv 8 0 0 ⟨5, 5, 10, 3, 0⟩).blockedWait =
      some 156 := by
  constructor
  · intro client required refillIn nowAfter
    constructor
    · unfold waitForTokens
      split
      · simpa using by omega
      · simpa using by omega
    · intro hlt
      unfold waitForTokens
      rw [if_neg (by omega)]
      exact ⟨rfl, rfl⟩
  · norm_num [doRequest, doRequestLoop, sendPhase, updateTokens, truncQ,
      waitForTokens, transportFailEnv, method_get_ne]

/-- C8 (witness): the blocking branch applied at the concrete state
with 5 tokens, a required amount of 18 and no server hint. -/
theorem C8_thm_witness :
    ((5 : Int) < 18) ∧
    ((waitForTokens ⟨5, 5, 10, 3, 0⟩ 18 0 0).1 =
        some (if (0 : Int) > 0 then ((0 : Int) : ℚ) / 1000
              else ((18 - 5 : ℤ) : ℚ) * (60 / (5 : ℚ))) ∧
      (waitForTokens ⟨5, 5, 10, 3, 0⟩ 18 0 0).2 =
        updateTokens ⟨5, 5, 10, 3, 0⟩ 0) :=
  ⟨by decide, (C8_thm.1 ⟨5, 5, 10, 3, 0⟩ 18 0 0).2 (by decide)⟩

/-- C5 (confirmed): in the per-ASIN loop of `handleFetchProducts` the
Redis lookup runs first, and on a cache hit the iteration issues zero
upstream `ProductRequest` calls and leaves the token budget untouched;
an upstream call can only happen when the lookup missed. -/
theorem C5_thm :
    ∀ (client : KeepaClient) (cached : Option String) (firestoreOk : Bool)
      (productRequest : KeepaClient → KeepaClient × Bool),
      (∀ payload,
        (processAsin client (some payload) firestoreOk productRequest).upstreamCalls = 0 ∧
        (processAsin client (some payload) firestoreOk productRequest).client = client) ∧
      ((processAsin client cached firestoreOk productRequest).upstreamCalls = 0 ∨
        cached = none) := by
  intro client cached firestoreOk productRequest
  constructor
  · intro payload
    cases firestoreOk <;> simp [processAsin]
  · cases cached with
    | none => exact Or.inr rfl
    | some payload => cases firestoreOk <;> simp [processAsin]

/-- Payload a `DetailOutcome` carries on success. -/
def DetailOutcome.payload : DetailOutcome → Option String
  | .ok d => some d
  | _ => none

/-- The goroutine body produces, for any ASIN, the response record
determined by its outcome alone. -/
theorem detailFetchOne_eq (asin : String) (o : DetailOutcome) :
    detailFetchOne asin o = ⟨asin, o.isOk, o.payload, o.reason⟩ := by
  cases o <;> rfl

/-- C6 (confirmed): `fetchProductDetails` produces exactly one result
entry per input ASIN — entry `i` belongs to input `i`, carries its
success flag and preserves its failure reason — so a batch where some
items fail still yields one entry per item and no failure aborts a
sibling. -/
theorem C6_thm (outcome : String → DetailOutcome) (asinList : List String) :
    (fetchProductDetails outcome asinList).length = asinList.length ∧
    (∀ (i : Nat) (asin : String), asinList[i]? = some asin →
      (fetchProductDetails outcome asinList)[i]? =
        some ⟨asin, (outcome asin).isOk, (outcome asin).payload,
          (outcome asin).reason⟩) := by
  constructor
  · simp [fetchProductDetails]
  · intro i asin h
    simp [fetchProductDetails, List.getElem?_map, h, detailFetchOne_eq]

/-- Input batch of ten ASINs for the C6 witness. -/
def asins10 : List String :=
  ["A0", "A1", "A2", "A3", "A4", "A5", "A6", "A7", "A8", "A9"]

/-- Outcome oracle for the C6 witness: items A1, A4, A7 fail with
distinct reasons, the remaining seven succeed. -/
def out10 : String → DetailOutcome := fun asin =>
  if asin = "A1" then .transportFail
  else if asin = "A4" then .readFail
  else if asin = "A7" then .parseFail
  else .ok "payload"

/-- C6 (witness): the ten-item batch with three failures yields a
result list of length ten whose entry 1 records the transport-failure
reason of A1 and whose entry 0 records the success of A0. -/
theorem C6_thm_witness :
    (fetchProductDetails out10 asins10).length = asins10.length ∧
    (fetchProductDetails out10 asins10)[1]? =
      some ⟨"A1", (out10 "A1").isOk, (out10 "A1").payload, (out10 "A1").reason⟩ ∧
    (fetchProductDetails out10 asins10)[0]? =
      some ⟨"A0", (out10 "A0").isOk, (out10 "A0").payload, (out10 "A0").reason⟩ :=
  ⟨(C6_thm out10 asins10).1,
   (C6_thm out10 asins10).2 1 "A1" rfl,
   (C6_thm out10 asins10).2 0 "A0" rfl⟩

/-- Every state reached along a sequence of `updateTokens`
recomputations has at most 300 tokens. -/
theorem updateStates_le_300 :
    ∀ (ts : List Int) (client : KeepaClient) (s : KeepaClient),
      s ∈ updateStates client ts → s.tokensLeft ≤ 300 := by
  intro ts
  induction ts with
  | nil => intro client s h; simp [updateStates] at h
  | cons t ts ih =>
    intro client s h
    simp only [updateStates, List.mem_cons] at h
    rcases h with h | h
    · rw [h]; exact updateTokens_tokensLeft_le client t
    · exact ih (updateTokens client t) s h

/-- Along monotonically increasing timestamps, prepending the starting
state (if within capacity) to the recomputation states gives a
nondecreasing `tokensLeft` sequence. -/
theorem tokensNondecreasing_aux :
    ∀ (ts : List Int) (client : KeepaClient),
      0 ≤ client.refillRate → client.tokensLeft ≤ 300 →
      monoTimes client.lastTimestamp ts = true →
      tokensNondecreasing (client :: updateStates client ts) = true := by
  intro ts
  induction ts with
  | nil => intro client _ _ _; rfl
  | cons t ts ih =>
    intro client hrate hcap hmono
    simp only [monoTimes, Bool.and_eq_true, decide_eq_true_eq] at hmono
    have hmonostep := updateTokens_mono client t hrate hcap hmono.1
    have hrate1 : 0 ≤ (updateTokens client t).refillRate := hrate
    have hcap1 : (updateTokens client t).tokensLeft ≤ 300 :=
      updateTokens_tokensLeft_le client t
    have hts1 : monoTimes (updateTokens client t).lastTimestamp ts = true := hmono.2
    have hrest := ih (updateTokens client t) hrate1 hcap1 hts1
    simp only [updateStates]
    simp only [tokensNondecreasing, Bool.and_eq_true, decide_eq_true_eq]
    exact ⟨hmonostep, by simpa [tokensNondecreasing] using hrest⟩

/-- C9 (confirmed): for every sequence of `updateTokens` calls at
monotonically increasing timestamps with no interleaved consumption,
the per-call `tokensLeft` values are nondecreasing from call to call
and never exceed the capacity of 300 (the refill rate is the
configured 5 tokens per minute). -/
theorem C9_thm (client : KeepaClient) (ts : List Int)
    (hrate : client.refillRate = 5)
    (hmono : monoTimes client.lastTimestamp ts = true) :
    tokensNondecreasing (updateStates client ts) = true ∧
    ∀ s ∈ updateStates client ts, s.tokensLeft ≤ 300 := by
  have hrate0 : 0 ≤ client.refillRate := by rw [hrate]; norm_num
  constructor
  · cases ts with
    | nil => rfl
    | cons t ts =>
      simp only [monoTimes, Bool.and_eq_true, decide_eq_true_eq] at hmono
      have := tokensNondecreasing_aux ts (updateTokens client t)
        hrate0 (updateTokens_tokensLeft_le client t) hmono.2
      simpa [updateStates] using this
  · exact fun s hs => updateStates_le_300 ts client s hs

/-- C9 (witness): the nondecreasing-and-capped property applied to the
freshly initialised client recomputed at timestamps 1000ms and
2000ms. -/
theorem C9_thm_witness :
    clientInit.refillRate = 5 ∧
    monoTimes clientInit.lastTimestamp [1000, 2000] = true ∧
    (tokensNondecreasing (updateStates clientInit [1000, 2000]) = true ∧
      ∀ s ∈ updateStates clientInit [1000, 2000], s.tokensLeft ≤ 300) :=
  ⟨rfl, by decide, C9_thm clientInit [1000, 2000] rfl (by decide)⟩

/-- C10 (code bug): when the transport call produces no response,
`doRequest` is only safe on the GET path.  Because the POST branch
declares a shadowing `err` on the `json.Marshal` line, a failed
`http.Post` leaves the outer `err` nil and a nil `resp`, so the
deferred `resp.Body.Close()` dereferences a nil response; a method
that is neither GET nor POST leaves both `resp` and `err` at their
nil zero values with the same nil dereference.  Only the GET path
returns the transport error as the claim demands. -/
theorem C10_code_bug :
    (doRequest "POST" transportFailEnv 8 0 0 clientInit).trace.outcome =
      .nilDerefPanic ∧
    (doRequest "DELETE" transportFailEnv 8 0 0 clientInit).trace.outcome =
      .nilDerefPanic ∧
    (doRequest "GET" transportFailEnv 8 0 0 clientInit).trace.outcome =
      .errTransport := by
  refine ⟨?_, ?_, ?_⟩ <;>
    norm_num [doRequest, doRequestLoop, sendPhase, updateTokens, truncQ,
      waitForTokens, transportFailEnv, clientInit, NewKeepaClient,
      (by decide : ¬("POST" : String) = "GET"),
      (by decide : ¬("DELETE" : String) = "GET"),
      (by decide : ¬("DELETE" : String) = "POST")]
